import Mathlib

/-!
Formal model of the session/round state machine of the council-crisis-clash
repository.

The definitions below are a shallow embedding of the TypeScript source and the
SQL schema:

* `src/src/contexts/MultiplayerContext.tsx` — the session context holding the
  authoritative demo state (`joinSession`, `startGame`, `setPlayerReady`,
  `castVote`, `nextRound`);
* `src/frontend/src/services/gameSessionService.ts` — `createGameSession`,
  `getInitialResources`, `getSampleScenario`, `generateSecretObjective`;
* `src/frontend/src/services/gameService.ts` — `recordVote` and the
  subscription callback of `subscribeToGame`;
* `src/unnamed/part_008` (the frontend `Game` page) — the `fetchOutcome`
  retry/fallback loop and the resource-depletion game-over effect;
* `src/unnamed/part_013` (the SQL schema) — the `votes` table with its
  `NOT NULL` and `UNIQUE(session_id, player_id, round)` constraints.

Sources of nondeterminism in the code (uuid generation, `Math.random`,
`Date.now`, network responses) are passed in as explicit parameters, so every
definition is a pure function of its inputs.
-/

namespace CouncilClash

/-- The five resource kinds of `gameSessionService.ts` (`Resource.type`). -/
inductive ResourceType where
  | tech
  | manpower
  | economy
  | happiness
  | trust
  deriving DecidableEq, Repr

/-- One resource counter (`Resource` in `gameSessionService.ts`).  Values are
integers; deltas may be negative, so we use `Int`. -/
structure Resource where
  type : ResourceType
  value : Int
  maxValue : Int
  deriving DecidableEq, Repr

/-- `SecretObjective` in `gameSessionService.ts`. -/
structure SecretObjective where
  description : String
  isCompleted : Bool
  progress : Nat
  target : Nat
  deriving DecidableEq, Repr

/-- `Player` in `gameSessionService.ts`.  The TypeScript declaration gives
`role : string`, but at runtime `joinSession` assigns
`roles[players.length - 1]`, which is `undefined` once the index runs past the
role list; we therefore model the runtime value as `Option String`.  The
`secretObjective` field is optional in the source (`secretObjective?:`). -/
structure Player where
  id : String
  name : String
  isReady : Bool
  hasVoted : Bool
  isEliminated : Bool
  role : Option String
  secretObjective : Option SecretObjective
  deriving DecidableEq, Repr

/-- One voting option of a scenario (`{ id: string; text: string }`). -/
structure ScenarioOpt where
  id : String
  text : String
  deriving DecidableEq, Repr

/-- `GameScenario` in `gameSessionService.ts`. -/
structure GameScenario where
  title : String
  description : String
  consequences : String
  options : List ScenarioOpt
  deriving DecidableEq, Repr

/-- `GameSession.status` in `gameSessionService.ts`:
`'waiting' | 'in-progress' | 'completed'`.  The `'waiting'` status is this
code's representation of the lobby phase. -/
inductive GameStatus where
  | waiting
  | inProgress
  | completed
  deriving DecidableEq, Repr

/-- `GamePhase` in `gameSessionService.ts`: `'scenario' | 'voting' | 'results'`. -/
inductive GamePhase where
  | scenario
  | voting
  | results
  deriving DecidableEq, Repr

/-- `GameSession` in `gameSessionService.ts`. -/
structure GameSession where
  id : String
  code : String
  hostId : String
  players : List Player
  status : GameStatus
  currentRound : Nat
  maxRounds : Nat
  resources : List Resource
  currentScenario : Option GameScenario
  createdAt : Nat
  deriving DecidableEq, Repr

/-- `getInitialResources` in `gameSessionService.ts`. -/
def getInitialResources : List Resource :=
  [ { type := ResourceType.tech, value := 75, maxValue := 100 },
    { type := ResourceType.manpower, value := 60, maxValue := 100 },
    { type := ResourceType.economy, value := 80, maxValue := 100 },
    { type := ResourceType.happiness, value := 90, maxValue := 100 },
    { type := ResourceType.trust, value := 70, maxValue := 100 } ]

/-- `createGameSession` in `gameSessionService.ts`.  The host id, session id,
session code and creation time are produced by `uuidv4`, `generateSessionCode`
and `Date.now` in the source; here they are explicit parameters. -/
def createGameSession (hostName hostId sessId code : String) (now : Nat) :
    GameSession :=
  { id := sessId
    code := code
    hostId := hostId
    players :=
      [ { id := hostId, name := hostName, isReady := true, hasVoted := false,
          isEliminated := false, role := some "Council Leader",
          secretObjective := none } ]
    status := GameStatus.waiting
    currentRound := 1
    maxRounds := 10
    resources := getInitialResources
    currentScenario := none
    createdAt := now }

/-- `getSampleScenario` in `gameSessionService.ts`. -/
def getSampleScenario : GameScenario :=
  { title := "Mysterious Signal From Deep Space"
    description := "Our deep space monitoring stations have detected an unusual signal originating from beyond our solar system. Initial analysis suggests it could be artificial in nature. The signal appears to contain complex mathematical sequences that our scientists believe may be an attempt at communication. However, there is no consensus on whether we should respond or what the message might contain."
    consequences := "How we handle this situation could dramatically affect our technological development and potentially our safety if the signal represents a threat."
    options :=
      [ { id := "option1", text := "Allocate resources to decode the signal but do not respond yet" },
        { id := "option2", text := "Immediately broadcast a response using similar mathematical principles" },
        { id := "option3", text := "Ignore the signal and increase our defensive capabilities" },
        { id := "option4", text := "Share the discovery with the public and crowdsource analysis" } ] }

/-- The objective texts of `generateSecretObjective` in `gameSessionService.ts`. -/
def objectiveTexts : List String :=
  [ "Ensure the \x27trust\x27 resource stays above 60% for 3 rounds",
    "Ensure the \x27tech\x27 resource drops below 40% at least once",
    "Make sure at least one player gets eliminated",
    "Keep the \x27economy\x27 resource above 70% for the next 2 rounds",
    "Ensure the \x27happiness\x27 resource stays balanced between 40-60%" ]

/-- `generateSecretObjective` in `gameSessionService.ts`; the random index
`Math.floor(Math.random() * 5)` is the explicit parameter `k`. -/
def generateSecretObjective (k : Fin 5) : SecretObjective :=
  { description := objectiveTexts.getD k.val ""
    isCompleted := false
    progress := 0
    target := 3 }

/-- The role list of `joinSession` in `src/src/contexts/MultiplayerContext.tsx`. -/
def joinRoles : List String :=
  ["Tech Minister", "Economy Director", "Security Chief"]

/-- `roles[updatedSession.players.length - 1]` in `joinSession`: a JavaScript
index read that yields `undefined` (here `none`) outside the array bounds. -/
def roleFor (numPlayers : Nat) : Option String :=
  if numPlayers = 0 then none else joinRoles.get? (numPlayers - 1)

/-- The state held by the `MultiplayerProvider` in
`src/src/contexts/MultiplayerContext.tsx` (`useState` fields).  `navigate` and
`toast` calls are view-layer effects and are not part of the state. -/
structure CtxState where
  playerId : Option String
  playerName : Option String
  currentSession : Option GameSession
  gamePhase : GamePhase
  isConnected : Bool
  isLoading : Bool
  error : Option String
  deriving DecidableEq, Repr

/-- The error message set by the catch branch of `joinSession`. -/
def joinErrorMsg : String :=
  "Failed to join session. Please check the code and try again."

/-- `joinSession` in `src/src/contexts/MultiplayerContext.tsx`.  The generated
player id (`uuidv4`) and the random objective index are explicit parameters.
The function checks only that a session is present and its code matches; it
then appends the new player unconditionally (there is no check on the number
of players already present). -/
def joinSession (sessionCode name newPlayerId : String) (objIdx : Fin 5)
    (st : CtxState) : CtxState :=
  match st.currentSession with
  | some s =>
    if s.code == sessionCode then
      let newPlayer : Player :=
        { id := newPlayerId, name := name, isReady := false, hasVoted := false,
          isEliminated := false, role := roleFor s.players.length,
          secretObjective := some (generateSecretObjective objIdx) }
      { st with
          playerId := some newPlayerId
          playerName := some name
          currentSession := some { s with players := s.players ++ [newPlayer] }
          isConnected := true
          isLoading := false }
    else
      { st with error := some joinErrorMsg, isLoading := false }
  | none => { st with error := some joinErrorMsg, isLoading := false }

/-- `Array.prototype.findIndex`, as used on the player list; `none` plays the
role of the JavaScript result `-1`. -/
def findIndex (p : Player → Bool) : List Player → Option Nat
  | [] => none
  | x :: xs => if p x then some 0 else (findIndex p xs).map (· + 1)

/-- In-place update of the element at an index, as in
`updatedSession.players[playerIndex].isReady = isReady`. -/
def updateAt (i : Nat) (f : Player → Player) : List Player → List Player
  | [] => []
  | x :: xs =>
    match i with
    | 0 => f x :: xs
    | n + 1 => x :: updateAt n f xs

/-- `startGame` in `src/src/contexts/MultiplayerContext.tsx`.  The random
objective indices for players lacking one are the explicit parameter `gen`
(one draw per player position).  The source checks only that at least one
player is ready (`readyPlayers.length < 1` aborts); there is no phase/status
guard and no all-players-ready or host-ready requirement. -/
def startGame (gen : Nat → Fin 5) (st : CtxState) : CtxState :=
  match st.currentSession with
  | some s =>
    if (s.players.filter (fun p => p.isReady)).length < 1 then st
    else
      let s' : GameSession :=
        { s with
            status := GameStatus.inProgress
            currentScenario := some getSampleScenario
            players :=
              (s.players.enum.map (fun ip =>
                match ip.2.secretObjective with
                | none =>
                  { ip.2 with
                      secretObjective := some (generateSecretObjective (gen ip.1)) }
                | some _ => ip.2)) }
      { st with currentSession := some s', gamePhase := GamePhase.scenario }
  | none => st

/-- `setPlayerReady` in `src/src/contexts/MultiplayerContext.tsx`: a no-op
unless a session and a player id are present and the player is found. -/
def setPlayerReady (isReady : Bool) (st : CtxState) : CtxState :=
  match st.currentSession, st.playerId with
  | some s, some pid =>
    match findIndex (fun p => p.id == pid) s.players with
    | some i =>
      { st with
          currentSession :=
            some { s with players := updateAt i (fun p => { p with isReady := isReady }) s.players } }
    | none => st
  | _, _ => st

/-- `castVote` in `src/src/contexts/MultiplayerContext.tsx`.  The `optionId`
argument is never validated against the scenario options and never stored;
the player's elimination flag is never consulted.  The deferred
`setGamePhase('results')` (a `setTimeout` in the source) is modelled as part
of the resulting state. -/
def castVote (optionId : String) (st : CtxState) : CtxState :=
  match st.currentSession, st.playerId with
  | some s, some pid =>
    match findIndex (fun p => p.id == pid) s.players with
    | some i =>
      { st with
          currentSession :=
            some { s with players := updateAt i (fun p => { p with hasVoted := true }) s.players }
          gamePhase := GamePhase.results }
    | none => st
  | _, _ => st

/-- The resource-value update of `nextRound` (and of `handleNextRound` in
`src/unnamed/part_011`):
`Math.min(Math.max(resource.value + delta, 0), 100)` — the new value is the
old value plus the delta clamped into `[0, 100]`. -/
def updateResourceValue (value delta : Int) : Int :=
  min (max (value + delta) 0) 100

/-- `nextRound` in `src/src/contexts/MultiplayerContext.tsx`.  The parameter
`rnd i` is the draw `Math.floor(Math.random() * 20)` for the `i`-th resource
(a value in `[0, 19]`); the applied delta is `rnd i - 10`.  The function
unconditionally increments the round, clears every has-voted flag, applies the
clamped resource update and returns to the scenario phase; it performs no
termination check of any kind. -/
def nextRound (rnd : Nat → Nat) (st : CtxState) : CtxState :=
  match st.currentSession with
  | some s =>
    let s' : GameSession :=
      { s with
          currentRound := s.currentRound + 1
          players := s.players.map (fun p => { p with hasVoted := false })
          resources :=
            s.resources.enum.map (fun ir =>
              { ir.2 with value := updateResourceValue ir.2.value ((rnd ir.1 : Int) - 10) })
          currentScenario := some getSampleScenario }
    { st with currentSession := some s', gamePhase := GamePhase.scenario }
  | none => st

/-- The depleted-resource list of the game-over effect in
`src/unnamed/part_008` (lines 777-792):
`resources.filter(r => r.value <= 0).map(r => r.type)`. -/
def depletedResources (rs : List Resource) : List ResourceType :=
  (rs.filter (fun r => decide (r.value ≤ 0))).map (fun r => r.type)

/-- The game-over trigger of the same effect: `depletedResources.length > 0`. -/
def gameOverTriggered (rs : List Resource) : Bool :=
  decide (0 < (depletedResources rs).length)

/-! ### The outcome fetch loop of `src/unnamed/part_008` (`fetchOutcome`) -/

/-- The canned fallback outcome text used by `fetchOutcome` when every fetch
attempt has failed or returned no outcome. -/
def fallbackOutcome : String :=
  "The council\x27s decision had significant consequences, but the details are still being processed."

/-- `maxRetries` in `fetchOutcome`. -/
def maxRetries : Nat := 3

/-- One call of `fetchOutcome` with `remaining` retries left.  The oracle
`f attempt` is the network response of the attempt numbered `attempt`:
`none` for an HTTP/transport failure or a body without an outcome, and
`some s` for a body carrying `outcome = s`.  JavaScript truthiness makes an
empty outcome string count as absent, hence the `s == ""` branch. -/
def fetchOutcomeGo (f : Nat → Option String) (attempt : Nat) :
    Nat → String
  | 0 =>
    match f attempt with
    | some s => if s == "" then fallbackOutcome else s
    | none => fallbackOutcome
  | remaining + 1 =>
    match f attempt with
    | some s => if s == "" then fetchOutcomeGo f (attempt + 1) remaining else s
    | none => fetchOutcomeGo f (attempt + 1) remaining

/-- `fetchOutcome` in `src/unnamed/part_008`: starts with `retries = 0` and
retries while `retries < maxRetries`, then falls back; the displayed outcome
is the returned string. -/
def fetchOutcome (f : Nat → Option String) : String :=
  fetchOutcomeGo f 0 maxRetries

/-! ### The snapshot subscription of `gameService.subscribeToGame`

Every change notification makes the subscriber re-fetch the complete game
state (`getGameState`) and hand it to the callback; the callback in
`MultiplayerContext` then overwrites the session's `currentRound`, `phase`,
players and resources with the delivered state, with no sequence number and
no comparison against the previously held state. -/

/-- The round/phase portion of one delivered full-state snapshot
(`GameState.current_round` and `GameState.phase` in `gameService.ts`). -/
structure DeliveredState where
  current_round : Nat
  phase : String
  deriving DecidableEq, Repr

/-- The adoption step of the subscription callback: the delivered snapshot
unconditionally replaces the held state (no staleness guard exists in
`subscribeToGame` or in the `MultiplayerContext` subscription handler). -/
def adoptDelivery (_prev : Option DeliveredState) (delivered : DeliveredState) :
    Option DeliveredState :=
  some delivered

/-- The subscriber's observed state after a sequence of deliveries. -/
def runDeliveries (init : Option DeliveredState) (ds : List DeliveredState) :
    Option DeliveredState :=
  ds.foldl adoptDelivery init

/-- The rank of a phase inside one round, in the order the round cycle visits
the phases.  This is the spec's vocabulary for stating monotonicity; the code
itself tags snapshots with no such number. -/
def phaseRank (phase : String) : Nat :=
  if phase == "lobby" then 0
  else if phase == "scenario" then 1
  else if phase == "results" then 2
  else 0

/-- The spec's round-number+phase ordinal of a snapshot, used to state the
monotonic-delivery claim. -/
def snapOrdinal (s : DeliveredState) : Nat :=
  4 * s.current_round + phaseRank s.phase

/-! ### The `votes` table of `src/unnamed/part_013` and `gameService.recordVote`

The schema declares `round INTEGER NOT NULL` (with no default) and
`UNIQUE(session_id, player_id, round)`.  `recordVote` issues an insert of
`{session_id, player_id, option}` — with no round value — so the store's
NOT NULL constraint rejects it; an insert that does carry a round (as in
`useTestGame.recordVote`) is rejected exactly when the `(session_id,
player_id, round)` triple is already present. -/

/-- One persisted row of the `votes` table. -/
structure VoteRow where
  session_id : String
  player_id : String
  round : Int
  vote : String
  deriving DecidableEq, Repr

/-- An insert request against the `votes` table.  `round := none` represents
an insert statement that supplies no value for the `round` column. -/
structure VoteInsertReq where
  session_id : String
  player_id : String
  round : Option Int
  vote : String
  deriving DecidableEq, Repr

/-- The two constraint violations relevant to the `votes` table. -/
inductive DBError where
  | notNullViolation
  | uniqueViolation
  deriving DecidableEq, Repr

/-- Whether a row carries the given `(session_id, player_id, round)` key —
the column triple of the table's UNIQUE constraint. -/
def voteMatches (s p : String) (r : Int) (row : VoteRow) : Bool :=
  row.session_id == s && row.player_id == p && row.round == r

/-- An INSERT against the `votes` table under the schema of
`src/unnamed/part_013`: the NOT NULL constraint on `round` and the
`UNIQUE(session_id, player_id, round)` constraint are checked; a violation
leaves the table unchanged. -/
def insertVote (tbl : List VoteRow) (req : VoteInsertReq) :
    Except DBError (List VoteRow) :=
  match req.round with
  | none => Except.error DBError.notNullViolation
  | some r =>
    if tbl.any (voteMatches req.session_id req.player_id r) then
      Except.error DBError.uniqueViolation
    else
      Except.ok (tbl ++ [{ session_id := req.session_id,
                           player_id := req.player_id,
                           round := r, vote := req.vote }])

/-- The insert request built by `gameService.recordVote`: it carries the
session, the player and the chosen option, but no round value.  (The source
even writes the option to a column named `option` that the schema does not
have; we read it, generously, as the `vote` column's value.) -/
def recordVoteReq (sessionId playerId option : String) : VoteInsertReq :=
  { session_id := sessionId, player_id := playerId, round := none,
    vote := option }

/-- The number of recorded votes for one `(session, player, round)` triple. -/
def countVotes (tbl : List VoteRow) (s p : String) (r : Int) : Nat :=
  (tbl.filter (voteMatches s p r)).length

/-- The table invariant of the UNIQUE constraint: at most one row per
`(session_id, player_id, round)` triple. -/
def VotesUnique (tbl : List VoteRow) : Prop :=
  ∀ s p : String, ∀ r : Int, countVotes tbl s p r ≤ 1

/-! ## Helper lemmas -/

/-- `fetchOutcomeGo` never produces the empty string: a fetched outcome is
accepted only when it is truthy, and the fallback text is non-empty. -/
theorem fetchOutcomeGo_ne_empty (f : Nat → Option String) :
    ∀ remaining attempt : Nat, fetchOutcomeGo f attempt remaining ≠ "" := by
  intro remaining
  induction remaining with
  | zero =>
    intro attempt
    rw [fetchOutcomeGo]
    cases f attempt with
    | none => decide
    | some s =>
      by_cases hs : s == ""
      · simp [hs]; decide
      · simp [hs]; exact fun h => by simp [h] at hs
  | succ n ih =>
    intro attempt
    rw [fetchOutcomeGo]
    cases f attempt with
    | none => exact ih (attempt + 1)
    | some s =>
      by_cases hs : s == ""
      · simp [hs]; exact ih (attempt + 1)
      · simp [hs]; exact fun h => by simp [h] at hs

/-- `fetchOutcomeGo` queries the oracle only at attempts
`attempt, …, attempt + remaining`. -/
theorem fetchOutcomeGo_congr (f g : Nat → Option String) :
    ∀ remaining attempt : Nat,
      (∀ i, attempt ≤ i → i ≤ attempt + remaining → f i = g i) →
      fetchOutcomeGo f attempt remaining = fetchOutcomeGo g attempt remaining := by
  intro remaining
  induction remaining with
  | zero =>
    intro attempt h
    rw [fetchOutcomeGo, fetchOutcomeGo, h attempt le_rfl (Nat.le_add_right _ _)]
  | succ n ih =>
    intro attempt h
    rw [fetchOutcomeGo, fetchOutcomeGo, h attempt le_rfl (Nat.le_add_right _ _)]
    cases g attempt with
    | none =>
      exact ih (attempt + 1) fun i h1 h2 => h i (Nat.le_of_succ_le h1) (by omega)
    | some s =>
      by_cases hs : s == ""
      · simp only [hs, if_true]
        exact ih (attempt + 1) fun i h1 h2 => h i (Nat.le_of_succ_le h1) (by omega)
      · simp [hs]

/-- `findIndex` misses exactly when no listed player carries the id. -/
theorem findIndex_eq_none_of_not_mem (pid : String) :
    ∀ l : List Player, (∀ p ∈ l, p.id ≠ pid) →
      findIndex (fun p => p.id == pid) l = none := by
  intro l
  induction l with
  | nil => intro _; rfl
  | cons x xs ih =>
    intro h
    have hx : (x.id == pid) = false := by
      simp only [beq_eq_false_iff_ne, ne_eq]
      exact h x (List.mem_cons_self x xs)
    rw [findIndex, hx]
    simp only [Bool.false_eq_true, if_false]
    rw [ih fun p hp => h p (List.mem_cons_of_mem x hp)]
    rfl

/-! ## Claim theorems -/

/-- C8: for every host name (and every drawn host id, session id, session code
and creation time), `createGameSession` produces a session whose resources
are tech=75, manpower=60, economy=80, happiness=90, trust=70, whose only
registered player is the host, whose round counter starts at 1 with a
maximum of 10 rounds, and which is in the lobby (represented in this code by
the status value `waiting`). -/
theorem C8_createGameSession_initial_state
    (hostName hostId sessId code : String) (now : Nat) :
    (createGameSession hostName hostId sessId code now).resources =
      [ { type := ResourceType.tech, value := 75, maxValue := 100 },
        { type := ResourceType.manpower, value := 60, maxValue := 100 },
        { type := ResourceType.economy, value := 80, maxValue := 100 },
        { type := ResourceType.happiness, value := 90, maxValue := 100 },
        { type := ResourceType.trust, value := 70, maxValue := 100 } ]
    ∧ (createGameSession hostName hostId sessId code now).players.map Player.id
        = [hostId]
    ∧ (createGameSession hostName hostId sessId code now).hostId = hostId
    ∧ (createGameSession hostName hostId sessId code now).players.map Player.name
        = [hostName]
    ∧ (createGameSession hostName hostId sessId code now).currentRound = 1
    ∧ (createGameSession hostName hostId sessId code now).maxRounds = 10
    ∧ (createGameSession hostName hostId sessId code now).status
        = GameStatus.waiting :=
  ⟨rfl, rfl, rfl, rfl, rfl, rfl, rfl⟩

/-- C9: the outcome fetch loop retries a bounded number of times and always
settles on some non-empty outcome text: the result never is empty, it depends
only on the first `maxRetries + 1` attempts (so the loop makes at most that
many calls), and when every attempt fails the canned fallback text is used. -/
theorem C9_fetchOutcome_bounded_retries_and_fallback :
    (∀ f : Nat → Option String, fetchOutcome f ≠ "")
    ∧ (∀ f g : Nat → Option String,
        (∀ i, i ≤ maxRetries → f i = g i) → fetchOutcome f = fetchOutcome g)
    ∧ fetchOutcome (fun _ => none) = fallbackOutcome := by
  refine ⟨fun f => fetchOutcomeGo_ne_empty f maxRetries 0, ?_, rfl⟩
  intro f g h
  exact fetchOutcomeGo_congr f g maxRetries 0 fun i h1 h2 => h i (by omega)

/-- Witness for C9: with an oracle that always fails, the loop terminates on
the fallback text, which is non-empty; and two oracles agreeing on attempts
`0..maxRetries` give the same outcome. -/
theorem C9_witness :
    fetchOutcome (fun _ => none) ≠ ""
    ∧ fetchOutcome (fun _ => none)
        = fetchOutcome (fun i => if i ≤ 3 then none else some "ignored") :=
  ⟨C9_fetchOutcome_bounded_retries_and_fallback.1 (fun _ => none),
   C9_fetchOutcome_bounded_retries_and_fallback.2.1 _ _ (by
     intro i hi
     rw [maxRetries] at hi
     simp [hi])⟩

/-- C3 counterexample: feeding the subscriber the snapshots round 3 then
round 2 (same phase) leaves its observed state at the round-2 snapshot, whose
round-number+phase ordinal is smaller — the observed state does not remain at
the round-3 snapshot, so delivery is not monotonic. -/
theorem C3_counterexample_out_of_order_delivery :
    runDeliveries none
        [ { current_round := 3, phase := "scenario" },
          { current_round := 2, phase := "scenario" } ]
      = some { current_round := 2, phase := "scenario" }
    ∧ snapOrdinal { current_round := 2, phase := "scenario" }
        < snapOrdinal { current_round := 3, phase := "scenario" }
    ∧ runDeliveries none
        [ { current_round := 3, phase := "scenario" },
          { current_round := 2, phase := "scenario" } ]
      ≠ some { current_round := 3, phase := "scenario" } := by
  refine ⟨rfl, by decide, by decide⟩

/-- C3 amended: every delivery hands the subscriber a full snapshot, but the
subscriber adopts it unconditionally — there is no sequence number and no
stale-delivery drop — so its observed state after any delivery sequence is
exactly the last delivered snapshot, even when that snapshot has a smaller
round-number+phase ordinal than an earlier one. -/
theorem C3_subscriber_adopts_last_delivery :
    (∀ init : Option DeliveredState, runDeliveries init [] = init)
    ∧ (∀ (init : Option DeliveredState) (ds : List DeliveredState)
        (d : DeliveredState), runDeliveries init (ds ++ [d]) = some d) := by
  refine ⟨fun _ => rfl, ?_⟩
  intro init ds d
  rw [runDeliveries, List.foldl_append]
  rfl

/-- C4 counterexample: applying a delta of −10 to a resource holding 5 stores
0, not −5: the update of `nextRound` (and `handleNextRound`) clamps at the
lower bound 0, so the stored value does not equal old value plus delta and
can never go below zero.  (`rnd = 0` draws the delta `0 - 10 = -10`.) -/
theorem C4_counterexample_clamped_at_zero :
    updateResourceValue 5 (-10) = 0
    ∧ (5 : Int) + (-10) = -5
    ∧ updateResourceValue 5 (-10) ≠ 5 + (-10)
    ∧ ((nextRound (fun _ => 0)
        { playerId := some "h", playerName := some "A",
          currentSession := some
            { id := "sid", code := "C", hostId := "h", players := [],
              status := GameStatus.inProgress, currentRound := 2,
              maxRounds := 10,
              resources := [{ type := ResourceType.trust, value := 5,
                              maxValue := 100 }],
              currentScenario := none, createdAt := 0 },
          gamePhase := GamePhase.results, isConnected := true,
          isLoading := false, error := none }).currentSession.map
            (fun s => s.resources.map Resource.value)) = some [0] := by
  refine ⟨by decide, by decide, by decide, rfl⟩

/-- C4 amended: the resource update clamps: the stored value is the old value
plus the delta, clamped into `[0, 100]` — it never goes below 0 (depletion is
observable only as the value exactly 0) nor above 100, and it equals the raw
sum exactly when that sum already lies in `[0, 100]`. -/
theorem C4_updateResourceValue_clamps (v d : Int) :
    0 ≤ updateResourceValue v d
    ∧ updateResourceValue v d ≤ 100
    ∧ (0 ≤ v + d → v + d ≤ 100 → updateResourceValue v d = v + d) := by
  refine ⟨?_, ?_, ?_⟩
  · exact le_min (le_max_right _ _) (by norm_num)
  · exact min_le_right _ _
  · intro h1 h2
    rw [updateResourceValue, max_eq_left h1, min_eq_left h2]

/-- Witness for C4: a delta whose sum stays in range is stored unclamped. -/
theorem C4_witness : updateResourceValue 50 10 = 50 + 10 :=
  (C4_updateResourceValue_clamps 50 10).2.2 (by decide) (by decide)

/-- C1 (evaluation at the failing input): `joinSession`, applied to a session
that already holds 4 active (non-eliminated) players together with the correct
session code, does not fail with `SessionFull`: it appends a 5th player and
signals no error, and the appended player's role — the out-of-bounds read
`roles[3]` — is `undefined` (`none`), violating the code's own declaration
`role: string` for `Player`. -/
theorem C1_joinSession_full_session_adds_fifth_player :
    (joinSession "ABC123" "Eve" "p5" 0
      { playerId := some "p1", playerName := some "Alice",
        currentSession := some
          { id := "sid", code := "ABC123", hostId := "p1",
            players :=
              [ { id := "p1", name := "Alice", isReady := true,
                  hasVoted := false, isEliminated := false,
                  role := some "Council Leader", secretObjective := none },
                { id := "p2", name := "Bob", isReady := true,
                  hasVoted := false, isEliminated := false,
                  role := some "Tech Minister", secretObjective := none },
                { id := "p3", name := "Cara", isReady := true,
                  hasVoted := false, isEliminated := false,
                  role := some "Economy Director", secretObjective := none },
                { id := "p4", name := "Dan", isReady := true,
                  hasVoted := false, isEliminated := false,
                  role := some "Security Chief", secretObjective := none } ],
            status := GameStatus.waiting, currentRound := 1, maxRounds := 10,
            resources := getInitialResources, currentScenario := none,
            createdAt := 0 },
        gamePhase := GamePhase.scenario, isConnected := true,
        isLoading := false, error := none }).currentSession.map
          (fun s => ((s.players.filter (fun p => !p.isEliminated)).length,
                     s.players.map Player.role))
      = some (5, [some "Council Leader", some "Tech Minister",
                  some "Economy Director", some "Security Chief", none])
    ∧ (joinSession "ABC123" "Eve" "p5" 0
      { playerId := some "p1", playerName := some "Alice",
        currentSession := some
          { id := "sid", code := "ABC123", hostId := "p1",
            players :=
              [ { id := "p1", name := "Alice", isReady := true,
                  hasVoted := false, isEliminated := false,
                  role := some "Council Leader", secretObjective := none },
                { id := "p2", name := "Bob", isReady := true,
                  hasVoted := false, isEliminated := false,
                  role := some "Tech Minister", secretObjective := none },
                { id := "p3", name := "Cara", isReady := true,
                  hasVoted := false, isEliminated := false,
                  role := some "Economy Director", secretObjective := none },
                { id := "p4", name := "Dan", isReady := true,
                  hasVoted := false, isEliminated := false,
                  role := some "Security Chief", secretObjective := none } ],
            status := GameStatus.waiting, currentRound := 1, maxRounds := 10,
            resources := getInitialResources, currentScenario := none,
            createdAt := 0 },
        gamePhase := GamePhase.scenario, isConnected := true,
        isLoading := false, error := none }).error = none := by
  refine ⟨by decide, rfl⟩

/-- C2 counterexample: a session in the results phase at round 10 of 10 — the
maximum round count — is not terminated by `nextRound`: the round advances to
11, the session stays in progress and the phase returns to `scenario` (the
code has no game-over phase at all), refuting the claimed termination check.
The draw `rnd = 10` makes every resource delta 0, so no depletion occurs. -/
theorem C2_counterexample_no_termination_at_max_rounds :
    ((nextRound (fun _ => 10)
      { playerId := some "h", playerName := some "Alice",
        currentSession := some
          { id := "sid", code := "ABC123", hostId := "h",
            players :=
              [ { id := "h", name := "Alice", isReady := true,
                  hasVoted := true, isEliminated := false,
                  role := some "Council Leader", secretObjective := none } ],
            status := GameStatus.inProgress, currentRound := 10,
            maxRounds := 10, resources := getInitialResources,
            currentScenario := none, createdAt := 0 },
        gamePhase := GamePhase.results, isConnected := true,
        isLoading := false, error := none }).currentSession.map
          (fun s => (s.currentRound, s.maxRounds, s.status,
                     s.resources.map Resource.value)))
      = some (11, 10, GameStatus.inProgress, [75, 60, 80, 90, 70])
    ∧ (nextRound (fun _ => 10)
      { playerId := some "h", playerName := some "Alice",
        currentSession := some
          { id := "sid", code := "ABC123", hostId := "h",
            players :=
              [ { id := "h", name := "Alice", isReady := true,
                  hasVoted := true, isEliminated := false,
                  role := some "Council Leader", secretObjective := none } ],
            status := GameStatus.inProgress, currentRound := 10,
            maxRounds := 10, resources := getInitialResources,
            currentScenario := none, createdAt := 0 },
        gamePhase := GamePhase.results, isConnected := true,
        isLoading := false, error := none }).gamePhase = GamePhase.scenario := by
  refine ⟨by decide, rfl⟩

/-- C2 amended: `nextRound` never evaluates termination — for every session it
unconditionally increments the round number by one, clears every player's
has-voted flag and returns to the scenario phase (there is no round-limit,
last-player or depletion check in the advance path); resource depletion is
instead detected by a separate watcher effect that declares game over exactly
when some resource value is ≤ 0. -/
theorem C2_nextRound_amended :
    (∀ (rnd : Nat → Nat) (st : CtxState) (s : GameSession),
      st.currentSession = some s →
        ((nextRound rnd st).currentSession.map GameSession.currentRound
            = some (s.currentRound + 1))
        ∧ (nextRound rnd st).gamePhase = GamePhase.scenario
        ∧ (∀ s' : GameSession, (nextRound rnd st).currentSession = some s' →
            ∀ p ∈ s'.players, p.hasVoted = false))
    ∧ (∀ rs : List Resource, gameOverTriggered rs = true ↔ ∃ r ∈ rs, r.value ≤ 0) := by
  constructor
  · intro rnd st s hs
    obtain ⟨pid, pname, cs, gp, conn, load, err⟩ := st
    simp only [CtxState.mk.injEq] at hs ⊢
    subst hs
    refine ⟨rfl, rfl, ?_⟩
    intro s' hs' p hp
    simp only [nextRound, Option.some.injEq] at hs'
    subst hs'
    simp only [List.mem_map] at hp
    obtain ⟨q, _, rfl⟩ := hp
    rfl
  · intro rs
    simp [gameOverTriggered, depletedResources, List.length_pos_iff_exists_mem,
      List.mem_filter]

/-- Witness for C2: advancing a concrete round-2 session yields the scenario
phase; and a ledger holding a zero-valued resource triggers the game-over
watcher. -/
theorem C2_witness :
    (nextRound (fun _ => 0)
      { playerId := some "h", playerName := some "A",
        currentSession := some
          { id := "sid", code := "C", hostId := "h", players := [],
            status := GameStatus.inProgress, currentRound := 2,
            maxRounds := 10, resources := [], currentScenario := none,
            createdAt := 0 },
        gamePhase := GamePhase.results, isConnected := true,
        isLoading := false, error := none }).gamePhase = GamePhase.scenario
    ∧ gameOverTriggered
        [{ type := ResourceType.trust, value := 0, maxValue := 100 }] = true :=
  ⟨(C2_nextRound_amended.1 (fun _ => 0) _ _ rfl).2.1,
   (C2_nextRound_amended.2 _).mpr
     ⟨{ type := ResourceType.trust, value := 0, maxValue := 100 },
      List.mem_singleton.mpr rfl, le_refl 0⟩⟩

/-- C5: under the `votes` schema, at most one vote is recorded per
`(session, player, round)` triple: an insert that succeeds preserves the
uniqueness invariant, an insert whose key triple is already present is
rejected with a unique-constraint violation (the chosen duplicate policy is
rejection, not overwrite), and the insert built by `gameService.recordVote` —
which supplies no round value — is rejected outright by the NOT NULL
constraint, so it never creates a duplicate either. -/
theorem C5_votes_unique_per_player_round :
    (∀ (tbl : List VoteRow) (req : VoteInsertReq) (tbl' : List VoteRow),
      VotesUnique tbl → insertVote tbl req = Except.ok tbl' → VotesUnique tbl')
    ∧ (∀ (tbl : List VoteRow) (s p : String) (r : Int) (v : String),
        0 < countVotes tbl s p r →
        insertVote tbl { session_id := s, player_id := p, round := some r, vote := v }
          = Except.error DBError.uniqueViolation)
    ∧ (∀ (tbl : List VoteRow) (sessionId playerId option : String),
        insertVote tbl (recordVoteReq sessionId playerId option)
          = Except.error DBError.notNullViolation) := by
  refine ⟨?_, ?_, fun _ _ _ _ => rfl⟩
  · intro tbl req tbl' hU hins
    obtain ⟨rs, rp, rr, rv⟩ := req
    cases rr with
    | none => simp [insertVote] at hins
    | some r =>
      simp only [insertVote] at hins
      by_cases hany : tbl.any (voteMatches rs rp r) = true
      · rw [if_pos hany] at hins; cases hins
      · rw [if_neg hany] at hins
        injection hins with hins
        subst hins
        intro s p r'
        rw [countVotes, List.filter_append, List.length_append]
        by_cases hm :
          voteMatches s p r'
            { session_id := rs, player_id := rp, round := r, vote := rv } = true
        · simp only [voteMatches, Bool.and_eq_true, beq_iff_eq] at hm
          obtain ⟨⟨hms, hmp⟩, hmr⟩ := hm
          subst hms; subst hmp; subst hmr
          have hnil : tbl.filter (voteMatches rs rp r) = [] := by
            rw [List.filter_eq_nil_iff]
            intro a ha hmatch
            exact hany (List.any_eq_true.mpr ⟨a, ha, hmatch⟩)
          rw [hnil]
          simp [voteMatches]
        · have hone :
              List.filter (voteMatches s p r')
                [{ session_id := rs, player_id := rp,
                   round := r, vote := rv : VoteRow }] = [] := by
            rw [List.filter_eq_nil_iff]
            intro a ha
            rw [List.mem_singleton] at ha
            subst ha
            exact fun hc => hm hc
          rw [hone]
          simpa using hU s p r'
  · intro tbl s p r v hc
    rw [countVotes] at hc
    obtain ⟨row, hrow⟩ := List.exists_mem_of_length_pos hc
    obtain ⟨hmem, hmatch⟩ := List.mem_filter.mp hrow
    have hany : tbl.any (voteMatches s p r) = true :=
      List.any_eq_true.mpr ⟨row, hmem, hmatch⟩
    simp only [insertVote]
    rw [if_pos hany]

/-- Witness for C5: a concrete duplicate `(session, player, round)` insert is
rejected, and a successful insert into the empty table keeps the invariant. -/
theorem C5_witness :
    insertVote [{ session_id := "S", player_id := "P", round := 1, vote := "option1" }]
        { session_id := "S", player_id := "P", round := some 1, vote := "option2" }
      = Except.error DBError.uniqueViolation
    ∧ insertVote [] (recordVoteReq "S" "P" "option1")
      = Except.error DBError.notNullViolation :=
  ⟨C5_votes_unique_per_player_round.2.1 _ "S" "P" 1 "option2" (by decide),
   C5_votes_unique_per_player_round.2.2 [] "S" "P" "option1"⟩

/-- C6 counterexample: a lobby session whose host is not ready (so neither
"all active players ready" nor "host alone ready" holds) is nevertheless
started by `startGame` — one ready non-host player suffices — and the phase
transitions to `scenario` with the session marked in progress. -/
theorem C6_counterexample_start_without_required_readiness :
    (some
      { id := "sid", code := "ABC123", hostId := "h",
        players :=
          [ { id := "h", name := "Alice", isReady := false, hasVoted := false,
              isEliminated := false, role := some "Council Leader",
              secretObjective := none },
            { id := "p2", name := "Bob", isReady := true, hasVoted := false,
              isEliminated := false, role := some "Tech Minister",
              secretObjective := none } ],
        status := GameStatus.waiting, currentRound := 1, maxRounds := 10,
        resources := getInitialResources, currentScenario := none,
        createdAt := 0 } : Option GameSession).map
        (fun s => (s.hostId, s.players.map (fun p => (p.id, p.isReady))))
      = some ("h", [("h", false), ("p2", true)])
    ∧ (startGame (fun _ => 0)
      { playerId := some "h", playerName := some "Alice",
        currentSession := some
          { id := "sid", code := "ABC123", hostId := "h",
            players :=
              [ { id := "h", name := "Alice", isReady := false,
                  hasVoted := false, isEliminated := false,
                  role := some "Council Leader", secretObjective := none },
                { id := "p2", name := "Bob", isReady := true,
                  hasVoted := false, isEliminated := false,
                  role := some "Tech Minister", secretObjective := none } ],
            status := GameStatus.waiting, currentRound := 1, maxRounds := 10,
            resources := getInitialResources, currentScenario := none,
            createdAt := 0 },
        gamePhase := GamePhase.scenario, isConnected := true,
        isLoading := false, error := none }).currentSession.map
          GameSession.status = some GameStatus.inProgress
    ∧ (startGame (fun _ => 0)
      { playerId := some "h", playerName := some "Alice",
        currentSession := some
          { id := "sid", code := "ABC123", hostId := "h",
            players :=
              [ { id := "h", name := "Alice", isReady := false,
                  hasVoted := false, isEliminated := false,
                  role := some "Council Leader", secretObjective := none },
                { id := "p2", name := "Bob", isReady := true,
                  hasVoted := false, isEliminated := false,
                  role := some "Tech Minister", secretObjective := none } ],
            status := GameStatus.waiting, currentRound := 1, maxRounds := 10,
            resources := getInitialResources, currentScenario := none,
            createdAt := 0 },
        gamePhase := GamePhase.scenario, isConnected := true,
        isLoading := false, error := none }).gamePhase = GamePhase.scenario := by
  refine ⟨by decide, by decide, rfl⟩

/-- C6 amended: `startGame` checks neither the phase/status nor which players
are ready: it transitions exactly when the session exists and at least one
player — any player — is ready.  When no player is ready it leaves the state
unchanged; when some player is ready it sets the status to in-progress,
assigns the sample scenario, moves the phase to `scenario` and keeps the
round number (round 1 for a fresh session). -/
theorem C6_startGame_amended :
    (∀ (gen : Nat → Fin 5) (st : CtxState) (s : GameSession),
      st.currentSession = some s →
        ((s.players.filter (fun p => p.isReady)).length < 1 →
            startGame gen st = st)
        ∧ (¬ (s.players.filter (fun p => p.isReady)).length < 1 →
            (startGame gen st).gamePhase = GamePhase.scenario
            ∧ (startGame gen st).currentSession.map GameSession.status
                = some GameStatus.inProgress
            ∧ (startGame gen st).currentSession.map GameSession.currentScenario
                = some (some getSampleScenario)
            ∧ (startGame gen st).currentSession.map GameSession.currentRound
                = some s.currentRound))
    ∧ (∀ l : List Player,
        0 < (l.filter (fun p => p.isReady)).length ↔ ∃ p ∈ l, p.isReady = true) := by
  constructor
  · intro gen st s hs
    obtain ⟨pid, pname, cs, gp, conn, load, err⟩ := st
    simp only [CtxState.mk.injEq] at hs
    subst hs
    constructor
    · intro hc
      simp [startGame, hc]
    · intro hc
      refine ⟨?_, ?_, ?_, ?_⟩ <;> simp [startGame, hc]
  · intro l
    simp [List.length_pos_iff_exists_mem, List.mem_filter]

/-- Witness for C6: a session with one ready player is started: the phase
moves to `scenario`. -/
theorem C6_witness :
    (startGame (fun _ => 0)
      { playerId := some "h", playerName := some "A",
        currentSession := some
          { id := "sid", code := "C", hostId := "h",
            players :=
              [ { id := "h", name := "A", isReady := true, hasVoted := false,
                  isEliminated := false, role := some "Council Leader",
                  secretObjective := none } ],
            status := GameStatus.waiting, currentRound := 1, maxRounds := 10,
            resources := getInitialResources, currentScenario := none,
            createdAt := 0 },
        gamePhase := GamePhase.scenario, isConnected := true,
        isLoading := false, error := none }).gamePhase = GamePhase.scenario :=
  ((C6_startGame_amended.1 (fun _ => 0) _ _ rfl).2 (by decide)).1

/-- C7 counterexample: an eliminated player casting a vote for an option id
that is not among the current scenario's options is not rejected: `castVote`
mutates the state, setting the caller's has-voted flag (the command is
accepted, with no `PlayerEliminated` or `UnknownOption` check). -/
theorem C7_counterexample_eliminated_player_unknown_option_accepted :
    ({ playerId := some "e1", playerName := some "Eve",
       currentSession := some
         { id := "sid", code := "C", hostId := "e1",
           players :=
             [ { id := "e1", name := "Eve", isReady := true, hasVoted := false,
                 isEliminated := true, role := some "Council Leader",
                 secretObjective := none } ],
           status := GameStatus.inProgress, currentRound := 1, maxRounds := 10,
           resources := getInitialResources,
           currentScenario := some
             { title := "T", description := "D", consequences := "Q",
               options := [{ id := "option1", text := "A" }] },
           createdAt := 0 },
       gamePhase := GamePhase.voting, isConnected := true, isLoading := false,
       error := none } : CtxState).currentSession.map
        (fun s => (s.players.map (fun p => (p.isEliminated, p.hasVoted)),
                   s.currentScenario.map (fun sc => sc.options.map ScenarioOpt.id)))
      = some ([(true, false)], some ["option1"])
    ∧ "bogus" ∉ ["option1"]
    ∧ (castVote "bogus"
      { playerId := some "e1", playerName := some "Eve",
        currentSession := some
          { id := "sid", code := "C", hostId := "e1",
            players :=
              [ { id := "e1", name := "Eve", isReady := true, hasVoted := false,
                  isEliminated := true, role := some "Council Leader",
                  secretObjective := none } ],
            status := GameStatus.inProgress, currentRound := 1, maxRounds := 10,
            resources := getInitialResources,
            currentScenario := some
              { title := "T", description := "D", consequences := "Q",
                options := [{ id := "option1", text := "A" }] },
            createdAt := 0 },
        gamePhase := GamePhase.voting, isConnected := true, isLoading := false,
        error := none }).currentSession.map
          (fun s => s.players.map Player.hasVoted) = some [true]
    ∧ castVote "bogus"
      { playerId := some "e1", playerName := some "Eve",
        currentSession := some
          { id := "sid", code := "C", hostId := "e1",
            players :=
              [ { id := "e1", name := "Eve", isReady := true, hasVoted := false,
                  isEliminated := true, role := some "Council Leader",
                  secretObjective := none } ],
            status := GameStatus.inProgress, currentRound := 1, maxRounds := 10,
            resources := getInitialResources,
            currentScenario := some
              { title := "T", description := "D", consequences := "Q",
                options := [{ id := "option1", text := "A" }] },
            createdAt := 0 },
        gamePhase := GamePhase.voting, isConnected := true, isLoading := false,
        error := none }
      ≠ { playerId := some "e1", playerName := some "Eve",
          currentSession := some
            { id := "sid", code := "C", hostId := "e1",
              players :=
                [ { id := "e1", name := "Eve", isReady := true,
                    hasVoted := false, isEliminated := true,
                    role := some "Council Leader", secretObjective := none } ],
              status := GameStatus.inProgress, currentRound := 1,
              maxRounds := 10, resources := getInitialResources,
              currentScenario := some
                { title := "T", description := "D", consequences := "Q",
                  options := [{ id := "option1", text := "A" }] },
              createdAt := 0 },
          gamePhase := GamePhase.voting, isConnected := true,
          isLoading := false, error := none } := by
  refine ⟨by decide, by decide, by decide, by decide⟩

/-- C7 amended: whenever a session and a caller id are present and the caller
appears in the player list, `castVote` sets the caller's has-voted flag and
moves the phase to `results` — regardless of the caller's elimination flag
and regardless of the option id, which is neither validated against the
scenario's options nor recorded anywhere (the resulting state is identical
for any two option ids). -/
theorem C7_castVote_amended :
    ∀ (optionId optionId2 : String) (st : CtxState) (s : GameSession)
      (pid : String) (i : Nat),
      st.currentSession = some s → st.playerId = some pid →
      findIndex (fun p => p.id == pid) s.players = some i →
      castVote optionId st =
        { st with
            currentSession := some
              { s with players :=
                  updateAt i (fun p => { p with hasVoted := true }) s.players }
            gamePhase := GamePhase.results }
      ∧ castVote optionId st = castVote optionId2 st := by
  intro o1 o2 st s pid i hs hp hidx
  obtain ⟨pid', pname, cs, gp, conn, load, err⟩ := st
  simp only [CtxState.mk.injEq] at hs hp
  subst hs
  subst hp
  constructor <;> simp [castVote, hidx]

/-- Witness for C7: for a concrete one-player session the cast vote is
independent of the chosen option id. -/
theorem C7_witness :
    castVote "optionA"
      { playerId := some "p1", playerName := some "A",
        currentSession := some
          { id := "sid", code := "C", hostId := "p1",
            players :=
              [ { id := "p1", name := "A", isReady := true, hasVoted := false,
                  isEliminated := false, role := some "Council Leader",
                  secretObjective := none } ],
            status := GameStatus.inProgress, currentRound := 1, maxRounds := 10,
            resources := getInitialResources, currentScenario := none,
            createdAt := 0 },
        gamePhase := GamePhase.voting, isConnected := true, isLoading := false,
        error := none }
    = castVote "optionB"
      { playerId := some "p1", playerName := some "A",
        currentSession := some
          { id := "sid", code := "C", hostId := "p1",
            players :=
              [ { id := "p1", name := "A", isReady := true, hasVoted := false,
                  isEliminated := false, role := some "Council Leader",
                  secretObjective := none } ],
            status := GameStatus.inProgress, currentRound := 1, maxRounds := 10,
            resources := getInitialResources, currentScenario := none,
            createdAt := 0 },
        gamePhase := GamePhase.voting, isConnected := true, isLoading := false,
        error := none } := by
  refine (C7_castVote_amended "optionA" "optionB" _
    { id := "sid", code := "C", hostId := "p1",
      players :=
        [ { id := "p1", name := "A", isReady := true, hasVoted := false,
            isEliminated := false, role := some "Council Leader",
            secretObjective := none } ],
      status := GameStatus.inProgress, currentRound := 1, maxRounds := 10,
      resources := getInitialResources, currentScenario := none,
      createdAt := 0 } "p1" 0 ?_ ?_ ?_).2 <;> rfl

/-- C10: when the context's player id does not occur in the session's player
list, both `setPlayerReady` and `castVote` return the state unchanged: no
player, resource, round or phase field is mutated and no error is set — a
silent no-op. -/
theorem C10_unknown_player_silent_noop :
    ∀ (st : CtxState) (s : GameSession) (pid : String) (isReady : Bool)
      (optionId : String),
      st.currentSession = some s → st.playerId = some pid →
      (∀ p ∈ s.players, p.id ≠ pid) →
      setPlayerReady isReady st = st ∧ castVote optionId st = st := by
  intro st s pid b o hs hp h
  have hidx := findIndex_eq_none_of_not_mem pid s.players h
  obtain ⟨pid', pname, cs, gp, conn, load, err⟩ := st
  simp only [CtxState.mk.injEq] at hs hp
  subst hs
  subst hp
  constructor <;> simp [setPlayerReady, castVote, hidx]

/-- Witness for C10: a ready-toggle and a vote by an id absent from the
player list leave a concrete state untouched. -/
theorem C10_witness :
    setPlayerReady true
      { playerId := some "ghost", playerName := some "G",
        currentSession := some
          { id := "sid", code := "C", hostId := "p1",
            players :=
              [ { id := "p1", name := "A", isReady := true, hasVoted := false,
                  isEliminated := false, role := some "Council Leader",
                  secretObjective := none } ],
            status := GameStatus.waiting, currentRound := 1, maxRounds := 10,
            resources := getInitialResources, currentScenario := none,
            createdAt := 0 },
        gamePhase := GamePhase.scenario, isConnected := true,
        isLoading := false, error := none }
    = { playerId := some "ghost", playerName := some "G",
        currentSession := some
          { id := "sid", code := "C", hostId := "p1",
            players :=
              [ { id := "p1", name := "A", isReady := true, hasVoted := false,
                  isEliminated := false, role := some "Council Leader",
                  secretObjective := none } ],
            status := GameStatus.waiting, currentRound := 1, maxRounds := 10,
            resources := getInitialResources, currentScenario := none,
            createdAt := 0 },
        gamePhase := GamePhase.scenario, isConnected := true,
        isLoading := false, error := none }
    ∧ castVote "option1"
      { playerId := some "ghost", playerName := some "G",
        currentSession := some
          { id := "sid", code := "C", hostId := "p1",
            players :=
              [ { id := "p1", name := "A", isReady := true, hasVoted := false,
                  isEliminated := false, role := some "Council Leader",
                  secretObjective := none } ],
            status := GameStatus.waiting, currentRound := 1, maxRounds := 10,
            resources := getInitialResources, currentScenario := none,
            createdAt := 0 },
        gamePhase := GamePhase.scenario, isConnected := true,
        isLoading := false, error := none }
    = { playerId := some "ghost", playerName := some "G",
        currentSession := some
          { id := "sid", code := "C", hostId := "p1",
            players :=
              [ { id := "p1", name := "A", isReady := true, hasVoted := false,
                  isEliminated := false, role := some "Council Leader",
                  secretObjective := none } ],
            status := GameStatus.waiting, currentRound := 1, maxRounds := 10,
            resources := getInitialResources, currentScenario := none,
            createdAt := 0 },
        gamePhase := GamePhase.scenario, isConnected := true,
        isLoading := false, error := none } :=
  C10_unknown_player_silent_noop _ _ "ghost" true "option1" rfl rfl (by decide)

end CouncilClash
